import Mathlib

/-!
Shallow embedding of the `aind_codeocean_pipeline_monitor` package
(`job.py` and `models.py`): the pipeline-monitor orchestration, its
tenacity retry wrapper, the captured-asset name resolution and the
data-asset parameter construction.

External collaborators (the CodeOcean client, the clock and the random
jitter source) are modelled as a deterministic oracle `Env`; every remote
call the orchestrator issues is recorded in a `Call` trace.
-/

namespace AindPipelineMonitor

/-- Lifecycle state of a computation, as read by the orchestrator
(`codeocean.computation.ComputationState`); the code only inspects
whether the state is `Failed`. -/
inductive ComputationState
  | Initializing
  | Running
  | Finalizing
  | Completed
  | Failed
deriving DecidableEq, Repr

/-- A computation handle returned by the external service. -/
structure Computation where
  id : String
  state : ComputationState
deriving DecidableEq, Repr

/-- Lifecycle state of a data asset (spec: Pending, Ready, Failed);
the code only inspects whether the state is `Failed`. -/
inductive DataAssetState
  | Pending
  | Ready
  | Failed
deriving DecidableEq, Repr

/-- A data asset handle returned by the external service. -/
structure DataAsset where
  id : String
  state : DataAssetState
deriving DecidableEq, Repr

/-- An S3 storage target; `prefix_` embeds the source field `prefix`
(a reserved word in Lean). -/
structure AWSS3Target where
  bucket : String
  prefix_ : String
deriving DecidableEq, Repr

/-- Storage target wrapper, as in the codeocean data-asset model. -/
structure Target where
  aws : AWSS3Target
deriving DecidableEq, Repr

/-- Reference to the computation an asset is derived from. -/
structure ComputationSource where
  id : String
deriving DecidableEq, Repr

/-- Source of a created data asset. -/
structure Source where
  computation : ComputationSource
deriving DecidableEq, Repr

/-- The fully resolved request to create the output data asset, as
assembled by `_build_data_asset_params`. -/
structure DataAssetParams where
  name : String
  description : Option String
  mount : String
  tags : List String
  source : Source
  target : Option Target
  custom_metadata : List (String × String)
  results_info : Option String
deriving DecidableEq, Repr

/-- One input data-asset reference inside the run parameters. -/
structure DataAssetsParam where
  id : String
  mount : String
deriving DecidableEq, Repr

/-- Parameters for running a pipeline (`codeocean.computation.RunParams`);
the orchestrator only reads `data_assets`. -/
structure RunParams where
  capsule_id : String
  data_assets : List DataAssetsParam
deriving DecidableEq, Repr

/-- Capture settings (`CapturedDataAssetParams` in models.py): the
data-asset parameters with `name` and `mount` made optional, plus the
naming-fallback fields.  `permissions` is kept as an opaque payload.
`data_description_file_name` is the descriptor file name that
`_get_name_from_data_description` looks for among the result files. -/
structure CapturedDataAssetParams where
  name : Option String
  mount : Option String
  description : Option String
  tags : List String
  custom_metadata : List (String × String)
  target : Option Target
  results_info : Option String
  input_data_name : Option String
  process_name_suffix : Option String
  process_name_suffix_tz : Option String
  data_description_file_name : String
  permissions : String
deriving DecidableEq, Repr

/-- Field defaults of `CapturedDataAssetParams` in models.py: in
particular `process_name_suffix` defaults to `"processed"` and
`process_name_suffix_tz` to `"UTC"`. -/
def defaultCapturedDataAssetParams : CapturedDataAssetParams :=
  { name := none
    mount := none
    description := none
    tags := []
    custom_metadata := []
    target := none
    results_info := none
    input_data_name := none
    process_name_suffix := some "processed"
    process_name_suffix_tz := some "UTC"
    data_description_file_name := "data_description.json"
    permissions := "everyone:viewer" }

/-- Settings for a whole monitor job (`PipelineMonitorSettings`): run
parameters plus the optional capture settings (accessed as
`capture_settings` throughout job.py). -/
structure PipelineMonitorSettings where
  run_params : RunParams
  capture_settings : Option CapturedDataAssetParams
deriving DecidableEq, Repr

/-- A UTC clock reading, the result of `datetime.now(tz=ZoneInfo("UTC"))`. -/
structure UTCDateTime where
  year : Nat
  month : Nat
  day : Nat
  hour : Nat
  minute : Nat
  second : Nat
deriving DecidableEq, Repr

/-- Two-digit zero padding, as `%m`, `%d`, `%H`, `%M`, `%S` in strftime. -/
def pad2 (n : Nat) : String :=
  if n < 10 then "0" ++ toString n else toString n

/-- Four-digit zero padding, as `%Y` in strftime. -/
def pad4 (n : Nat) : String :=
  if n < 10 then "000" ++ toString n
  else if n < 100 then "00" ++ toString n
  else if n < 1000 then "0" ++ toString n
  else toString n

/-- Embeds `dt.strftime("%Y-%m-%d_%H-%M-%S")`. -/
def strftime_Y_m_d_H_M_S (dt : UTCDateTime) : String :=
  pad4 dt.year ++ "-" ++ pad2 dt.month ++ "-" ++ pad2 dt.day ++ "_" ++
    pad2 dt.hour ++ "-" ++ pad2 dt.minute ++ "-" ++ pad2 dt.second

/-- Result of one remote HTTP call: a value or an HTTPError status. -/
inductive HttpResult (α : Type)
  | ok (v : α)
  | httpError (status : Nat)
deriving DecidableEq, Repr

/-- Deterministic oracle for everything outside the orchestrator: the
CodeOcean client responses (attempt-indexed for the two polled calls),
the UTC clock reading, the DERIVED-pattern regex test
(`re.match(DataRegex.DERIVED.value, s) is not None` from
aind_data_schema_models) and the random jitter draws of `wait_random`. -/
structure Env where
  run_capsule_response : Computation
  monitor_responses : Nat → HttpResult Computation
  get_data_asset_name : String → String
  list_computation_results : String → List String
  download_name_field : String → String → Option String
  matches_derived_regex : String → Bool
  now : UTCDateTime
  create_data_asset_response : DataAssetParams → DataAsset
  wait_ready_responses : Nat → HttpResult DataAsset
  jitter : Nat → ℚ

/-- One remote call issued by the orchestrator, recorded in a trace. -/
inductive Call
  | runCapsule (p : RunParams)
  | waitUntilCompleted
  | getDataAsset (id : String)
  | listComputationResults (cid : String)
  | downloadResultFile (cid : String) (path : String)
  | createDataAsset (p : DataAssetParams)
  | waitUntilReady
  | updatePermissions (dataAssetId : String) (permissions : String)
deriving DecidableEq, Repr

/-- Python str formatting of an optional string inside an f-string:
`None` renders as the literal string "None". -/
def pyStr : Option String → String
  | some s => s
  | none => "None"

/-- Embeds `_get_input_data_name`: the name of the first input data
asset from the run params, looked up through the client; `none` when no
input data assets are referenced. -/
def _get_input_data_name (env : Env) (s : PipelineMonitorSettings) :
    List Call × Option String :=
  match s.run_params.data_assets with
  | [] => ([], none)
  | first_data_asset :: _ =>
      ([Call.getDataAsset first_data_asset.id],
        some (env.get_data_asset_name first_data_asset.id))

/-- Embeds `_get_name_from_data_description`: list the computation's
result files; when the descriptor file name is among them, download it
and return its parsed `name` field. -/
def _get_name_from_data_description (env : Env)
    (cs : CapturedDataAssetParams) (computation : Computation) :
    List Call × Option String :=
  let dd_file_name := cs.data_description_file_name
  let result_files := env.list_computation_results computation.id
  if result_files.contains dd_file_name then
    ([Call.listComputationResults computation.id,
        Call.downloadResultFile computation.id dd_file_name],
      env.download_name_field computation.id dd_file_name)
  else
    ([Call.listComputationResults computation.id], none)

/-- The descriptor-file name after the DERIVED-pattern validation inside
`_get_name`: a downloaded name that fails the pattern check is discarded
(with only a warning). -/
def validated_name_from_file (env : Env) (cs : CapturedDataAssetParams)
    (computation : Computation) : Option String :=
  match (_get_name_from_data_description env cs computation).2 with
  | some n => if env.matches_derived_regex n then some n else none
  | none => none

/-- Embeds `_get_name`: resolve a data-asset name from the descriptor
file, falling back to the default
`f"{input_data_name}_{suffix}_{dt_suffix}"`; errors when neither a
usable descriptor name nor an input data asset exists. -/
def _get_name (env : Env) (s : PipelineMonitorSettings)
    (cs : CapturedDataAssetParams) (computation : Computation) :
    List Call × Except String String :=
  let dt_suffix := strftime_Y_m_d_H_M_S env.now
  let c1 := _get_input_data_name env s
  let suffix := cs.process_name_suffix
  let default_name := pyStr c1.2 ++ "_" ++ pyStr suffix ++ "_" ++ dt_suffix
  let c2 := _get_name_from_data_description env cs computation
  (c1.1 ++ c2.1,
    match validated_name_from_file env cs computation, c1.2 with
    | none, none => Except.error "Unable to construct data asset name."
    | some n, _ => Except.ok n
    | none, some _ => Except.ok default_name)

/-- Name selection at the top of `_build_data_asset_params`: an explicit
capture-settings name wins outright, otherwise `_get_name` runs. -/
def resolve_asset_name (env : Env) (s : PipelineMonitorSettings)
    (cs : CapturedDataAssetParams) (computation : Computation) :
    List Call × Except String String :=
  match cs.name with
  | some n => ([], Except.ok n)
  | none => _get_name env s cs computation

/-- Embeds `_build_data_asset_params`: assemble the data-asset creation
request from the capture settings, the resolved name and the completed
computation. -/
def _build_data_asset_params (env : Env) (s : PipelineMonitorSettings)
    (cs : CapturedDataAssetParams) (monitor_pipeline_response : Computation) :
    List Call × Except String DataAssetParams :=
  let r := resolve_asset_name env s cs monitor_pipeline_response
  (r.1,
    match r.2 with
    | Except.error e => Except.error e
    | Except.ok data_asset_name =>
      let data_asset_mount :=
        match cs.mount with
        | some m => m
        | none => data_asset_name
      let target : Option Target :=
        match cs.target with
        | some t => some ⟨⟨t.aws.bucket, data_asset_name⟩⟩
        | none => none
      Except.ok
        { name := data_asset_name
          description := cs.description
          mount := data_asset_mount
          tags := cs.tags
          source := ⟨⟨monitor_pipeline_response.id⟩⟩
          target := target
          custom_metadata := cs.custom_metadata
          results_info := cs.results_info })

/-- Application-level errors surfaced by the orchestrator. -/
inductive Err
  | pipelineFailed (response : Computation)
  | dataAssetFailed (response : DataAsset)
  | httpError (status : Nat)
  | nameResolution (msg : String)
  | retryExhausted
deriving DecidableEq, Repr

/-- Outcome of one attempt of a retry-wrapped call body: a return value,
the retryable `TooManyRequests` exception, or a non-retryable error. -/
inductive AttemptOutcome (α : Type)
  | success (v : α)
  | tooManyRequests
  | err (e : Err)
deriving DecidableEq, Repr

/-- Result of the tenacity-wrapped call: the returned value, a
propagated non-retryable error, or `RetryError` after exhaustion. -/
inductive RetryResult (α : Type)
  | value (v : α)
  | raised (e : Err)
  | exhausted
deriving DecidableEq, Repr

/-- Embeds tenacity `wait_exponential(multiplier, min, max)`: after the
attempt numbered `attempt_number` fails, the wait is
`max(max(0, min), min(multiplier * 2 ** (attempt_number - 1), max))`. -/
def wait_exponential (multiplier mn mx : ℚ) (attempt_number : Nat) : ℚ :=
  max (max 0 mn) (min (multiplier * 2 ^ (attempt_number - 1)) mx)

/-- The wait configured on both retry decorators in job.py:
`wait_exponential(multiplier=1, min=8, max=32) + wait_random(0, 5)`,
where `jitter i` is the random draw used after attempt `i` fails. -/
def retry_wait (jitter : Nat → ℚ) (attempt_number : Nat) : ℚ :=
  wait_exponential 1 8 32 attempt_number + jitter attempt_number

/-- Embeds the tenacity retry loop: `remaining` counts the attempts
still allowed (`stop_after_attempt` stops once the finished-attempt
count reaches the cap, raising `RetryError`), `attempt` is the 1-based
number of the current attempt, and `f` gives each attempt's outcome.
Returns the final outcome, the number of attempts made, and the total
wait slept between attempts. -/
def retry_drive (f : Nat → AttemptOutcome α) (wait : Nat → ℚ) :
    Nat → Nat → RetryResult α × Nat × ℚ
  | 0, attempt => (RetryResult.exhausted, attempt - 1, 0)
  | remaining + 1, attempt =>
    match f attempt with
    | AttemptOutcome.success v => (RetryResult.value v, attempt, 0)
    | AttemptOutcome.err e => (RetryResult.raised e, attempt, 0)
    | AttemptOutcome.tooManyRequests =>
      if remaining = 0 then (RetryResult.exhausted, attempt, 0)
      else
        let rest := retry_drive f wait remaining (attempt + 1)
        (rest.1, rest.2.1, wait attempt + rest.2.2)

/-- Embeds the decorator
`@retry(retry=retry_if_exception_type(TooManyRequests), wait=..., stop=stop_after_attempt(7))`
used on `_monitor_pipeline` and `_wait_for_data_asset`. -/
def retry_call (f : Nat → AttemptOutcome α) (wait : Nat → ℚ) :
    RetryResult α × Nat × ℚ :=
  retry_drive f wait 7 1

/-- Body of `_monitor_pipeline`: an HTTPError with status 429 becomes
the retryable `TooManyRequests`; a computation in the `Failed` state
raises a plain (non-retryable) exception; any other HTTPError is
re-raised; otherwise the computation is returned. -/
def monitor_attempt (r : HttpResult Computation) : AttemptOutcome Computation :=
  match r with
  | HttpResult.ok c =>
    if c.state = ComputationState.Failed then
      AttemptOutcome.err (Err.pipelineFailed c)
    else AttemptOutcome.success c
  | HttpResult.httpError status =>
    if status = 429 then AttemptOutcome.tooManyRequests
    else AttemptOutcome.err (Err.httpError status)

/-- Embeds `_monitor_pipeline`: the retry-wrapped wait-until-completed
poll, with `responses i` the service's answer to attempt `i`. -/
def _monitor_pipeline (responses : Nat → HttpResult Computation)
    (jitter : Nat → ℚ) : RetryResult Computation × Nat × ℚ :=
  retry_call (fun i => monitor_attempt (responses i)) (retry_wait jitter)

/-- Body of `_wait_for_data_asset`: 429 becomes `TooManyRequests`; a
data asset in the `Failed` state raises; other HTTPErrors re-raise. -/
def data_asset_attempt (r : HttpResult DataAsset) : AttemptOutcome DataAsset :=
  match r with
  | HttpResult.ok a =>
    if a.state = DataAssetState.Failed then
      AttemptOutcome.err (Err.dataAssetFailed a)
    else AttemptOutcome.success a
  | HttpResult.httpError status =>
    if status = 429 then AttemptOutcome.tooManyRequests
    else AttemptOutcome.err (Err.httpError status)

/-- Embeds `_wait_for_data_asset`: the retry-wrapped wait-until-ready
poll, with `responses i` the service's answer to attempt `i`. -/
def _wait_for_data_asset (responses : Nat → HttpResult DataAsset)
    (jitter : Nat → ℚ) : RetryResult DataAsset × Nat × ℚ :=
  retry_call (fun i => data_asset_attempt (responses i)) (retry_wait jitter)

/-- Embeds `run_job`: start the pipeline, monitor it, and when capture
settings are present build the asset params, create the asset, wait for
it and update its permissions.  Returns the trace of remote calls issued
and the run's result. -/
def run_job (env : Env) (s : PipelineMonitorSettings) :
    List Call × Except Err Unit :=
  let m := _monitor_pipeline env.monitor_responses env.jitter
  let t1 := Call.runCapsule s.run_params ::
    List.replicate m.2.1 Call.waitUntilCompleted
  match m.1, s.capture_settings with
  | RetryResult.exhausted, _ => (t1, Except.error Err.retryExhausted)
  | RetryResult.raised e, _ => (t1, Except.error e)
  | RetryResult.value _, none => (t1, Except.ok ())
  | RetryResult.value monitor_pipeline_response, some cs =>
    let b := _build_data_asset_params env s cs monitor_pipeline_response
    match b.2 with
    | Except.error msg => (t1 ++ b.1, Except.error (Err.nameResolution msg))
    | Except.ok data_asset_params =>
      let capture_result_response :=
        env.create_data_asset_response data_asset_params
      let w := _wait_for_data_asset env.wait_ready_responses env.jitter
      let t4 := t1 ++ b.1 ++ [Call.createDataAsset data_asset_params] ++
        List.replicate w.2.1 Call.waitUntilReady
      match w.1 with
      | RetryResult.exhausted => (t4, Except.error Err.retryExhausted)
      | RetryResult.raised e => (t4, Except.error e)
      | RetryResult.value _ =>
        (t4 ++ [Call.updatePermissions capture_result_response.id
            cs.permissions],
          Except.ok ())

/-- Capture settings differing from `cs` only in `process_name_suffix_tz`. -/
def withTz (cs : CapturedDataAssetParams) (tz : Option String) :
    CapturedDataAssetParams :=
  { cs with process_name_suffix_tz := tz }

/-- Monitor-job settings with the given run params and capture settings. -/
def mkSettings (rp : RunParams) (cs : CapturedDataAssetParams) :
    PipelineMonitorSettings :=
  { run_params := rp, capture_settings := some cs }

/-! Concrete instances used to witness the claim theorems. -/

/-- A computation that finished in the Completed state. -/
def compCompleted : Computation :=
  { id := "comp1", state := ComputationState.Completed }

/-- A fixed UTC clock reading, 2024-01-01T10:00:00Z. -/
def dt2024 : UTCDateTime :=
  { year := 2024, month := 1, day := 1, hour := 10, minute := 0, second := 0 }

/-- A data asset in the Ready state. -/
def assetReady : DataAsset :=
  { id := "asset1", state := DataAssetState.Ready }

/-- A happy-path service oracle: the pipeline completes on the first
poll, the input asset is named "raw-ecephys", the results folder holds a
descriptor file whose name fails the DERIVED pattern, and the created
asset becomes Ready on the first poll. -/
def envBase : Env :=
  { run_capsule_response := { id := "comp1", state := ComputationState.Running }
    monitor_responses := fun _ => HttpResult.ok compCompleted
    get_data_asset_name := fun _ => "raw-ecephys"
    list_computation_results := fun _ => ["data_description.json", "output"]
    download_name_field := fun _ _ => some "not_matching_pattern"
    matches_derived_regex := fun _ => false
    now := dt2024
    create_data_asset_response := fun _ =>
      { id := "asset1", state := DataAssetState.Pending }
    wait_ready_responses := fun _ => HttpResult.ok assetReady
    jitter := fun _ => 0 }

/-- Run parameters referencing one input data asset. -/
def rpOne : RunParams :=
  { capsule_id := "cap1", data_assets := [{ id := "da1", mount := "ecephys" }] }

/-- Run parameters referencing no input data assets. -/
def rpNone : RunParams :=
  { capsule_id := "cap1", data_assets := [] }

/-- Capture settings with an explicit name. -/
def csExplicit : CapturedDataAssetParams :=
  { defaultCapturedDataAssetParams with name := some "run-42" }

/-- Capture settings whose explicit name is the empty string. -/
def csEmptyName : CapturedDataAssetParams :=
  { defaultCapturedDataAssetParams with name := some "" }

/-- Settings with one input asset and default capture settings. -/
def sInput : PipelineMonitorSettings :=
  { run_params := rpOne, capture_settings := some defaultCapturedDataAssetParams }

/-- Settings with no input assets and default capture settings. -/
def sNone : PipelineMonitorSettings :=
  { run_params := rpNone, capture_settings := some defaultCapturedDataAssetParams }

/-- Settings with an explicit capture name. -/
def sExplicit : PipelineMonitorSettings :=
  { run_params := rpOne, capture_settings := some csExplicit }

/-- Settings with an explicitly empty capture name. -/
def sEmptyName : PipelineMonitorSettings :=
  { run_params := rpNone, capture_settings := some csEmptyName }

/-- The creation request that `run_job envBase sEmptyName` issues: its
name, and hence its mount, is the empty string. -/
def paramsEmpty : DataAssetParams :=
  { name := ""
    description := none
    mount := ""
    tags := []
    source := ⟨⟨"comp1"⟩⟩
    target := none
    custom_metadata := []
    results_info := none }

/-- The creation request that `run_job envBase sInput` issues. -/
def paramsDefaultName : DataAssetParams :=
  { name := "raw-ecephys_processed_2024-01-01_10-00-00"
    description := none
    mount := "raw-ecephys_processed_2024-01-01_10-00-00"
    tags := []
    source := ⟨⟨"comp1"⟩⟩
    target := none
    custom_metadata := []
    results_info := none }

/-- Monitor responses: two rate limits, then a completed computation. -/
def mres2 : Nat → HttpResult Computation :=
  fun i => if i ≤ 2 then HttpResult.httpError 429 else HttpResult.ok compCompleted

/-- Attempt outcomes: three rate limits, then success. -/
def f3then : Nat → AttemptOutcome Computation :=
  fun i => if i ≤ 3 then AttemptOutcome.tooManyRequests
    else AttemptOutcome.success compCompleted

/-! Helper lemmas shared by the claim theorems. -/

/-- The builder issues exactly the remote calls of name resolution. -/
theorem _build_fst_eq (env : Env) (s : PipelineMonitorSettings)
    (cs : CapturedDataAssetParams) (c : Computation) :
    (_build_data_asset_params env s cs c).1 = (resolve_asset_name env s cs c).1 :=
  rfl

/-- The call trace of `_get_name` is the input-asset lookup trace
followed by the descriptor-lookup trace. -/
theorem _get_name_fst_eq (env : Env) (s : PipelineMonitorSettings)
    (cs : CapturedDataAssetParams) (comp : Computation) :
    (_get_name env s cs comp).1 =
      (_get_input_data_name env s).1 ++
        (_get_name_from_data_description env cs comp).1 :=
  rfl

/-- Every call issued by `_get_name` is an input-asset lookup, a result
listing, or a descriptor download. -/
theorem get_name_calls_shape (env : Env) (s : PipelineMonitorSettings)
    (cs : CapturedDataAssetParams) (comp : Computation) (c : Call)
    (hc : c ∈ (_get_name env s cs comp).1) :
    (∃ i, c = Call.getDataAsset i) ∨
      (∃ i, c = Call.listComputationResults i) ∨
      (∃ i p, c = Call.downloadResultFile i p) := by
  rw [_get_name_fst_eq] at hc
  simp only [List.mem_append] at hc
  rcases hc with hc | hc
  · unfold _get_input_data_name at hc
    cases hda : s.run_params.data_assets with
    | nil => rw [hda] at hc; simp at hc
    | cons fda rest =>
      rw [hda] at hc
      simp only [List.mem_singleton] at hc
      exact Or.inl ⟨fda.id, hc⟩
  · unfold _get_name_from_data_description at hc
    by_cases hdd : (env.list_computation_results comp.id).contains
        cs.data_description_file_name = true
    · rw [if_pos hdd] at hc
      simp only [List.mem_cons, List.not_mem_nil, or_false] at hc
      rcases hc with hc | hc
      · exact Or.inr (Or.inl ⟨comp.id, hc⟩)
      · exact Or.inr (Or.inr ⟨comp.id, cs.data_description_file_name, hc⟩)
    · rw [if_neg hdd] at hc
      simp only [List.mem_singleton] at hc
      exact Or.inr (Or.inl ⟨comp.id, hc⟩)

/-- Every call issued by name resolution (hence by the builder) is a
read: never an asset creation and never a permission update. -/
theorem build_calls_are_reads (env : Env) (s : PipelineMonitorSettings)
    (cs : CapturedDataAssetParams) (comp : Computation) (c : Call)
    (hc : c ∈ (_build_data_asset_params env s cs comp).1) :
    (∀ p, c ≠ Call.createDataAsset p) ∧
      (∀ a pm, c ≠ Call.updatePermissions a pm) := by
  rw [_build_fst_eq] at hc
  unfold resolve_asset_name at hc
  cases hname : cs.name with
  | some n => rw [hname] at hc; simp at hc
  | none =>
    rw [hname] at hc
    rcases get_name_calls_shape env s cs comp c hc with ⟨i, h⟩ | ⟨i, h⟩ | ⟨i, p, h⟩ <;>
      subst h <;> exact ⟨fun _ => by simp, fun _ _ => by simp⟩

/-- When every attempt in the window is rate-limited, the retry loop
exhausts its budget. -/
theorem retry_drive_exhausts (f : Nat → AttemptOutcome α) (w : Nat → ℚ) :
    ∀ fuel attempt, 1 ≤ fuel →
      (∀ i, attempt ≤ i → i < attempt + fuel →
        f i = AttemptOutcome.tooManyRequests) →
      (retry_drive f w fuel attempt).1 = RetryResult.exhausted ∧
        (retry_drive f w fuel attempt).2.1 = attempt + fuel - 1 := by
  intro fuel
  induction fuel with
  | zero => intro attempt h; omega
  | succ n ih =>
    intro attempt _ hall
    have hfa : f attempt = AttemptOutcome.tooManyRequests :=
      hall attempt le_rfl (by omega)
    cases n with
    | zero =>
      rw [retry_drive, hfa]
      simp
    | succ m =>
      have hrec := ih (attempt + 1) (by omega)
        (fun i h1 h2 => hall i (by omega) (by omega))
      rw [retry_drive, hfa]
      dsimp only
      rw [if_neg (by omega : ¬m + 1 = 0)]
      exact ⟨hrec.1, by rw [hrec.2]; omega⟩

/-- A run of `k` rate-limited attempts followed by a success inside the
budget returns the successful value at attempt `attempt + k`. -/
theorem retry_drive_value (f : Nat → AttemptOutcome α) (w : Nat → ℚ) (v : α) :
    ∀ k fuel attempt, k < fuel →
      (∀ i, attempt ≤ i → i < attempt + k →
        f i = AttemptOutcome.tooManyRequests) →
      f (attempt + k) = AttemptOutcome.success v →
      (retry_drive f w fuel attempt).1 = RetryResult.value v ∧
        (retry_drive f w fuel attempt).2.1 = attempt + k := by
  intro k
  induction k with
  | zero =>
    intro fuel attempt hk _ hs
    cases fuel with
    | zero => omega
    | succ n =>
      rw [Nat.add_zero] at hs
      rw [retry_drive, hs]
      simp
  | succ m ih =>
    intro fuel attempt hk hall hs
    have hfa : f attempt = AttemptOutcome.tooManyRequests :=
      hall attempt le_rfl (by omega)
    cases fuel with
    | zero => omega
    | succ n =>
      have hrec := ih n (attempt + 1) (by omega)
        (fun i h1 h2 => hall i (by omega) (by omega))
        (by rw [show attempt + 1 + m = attempt + (m + 1) by omega]; exact hs)
      rw [retry_drive, hfa]
      dsimp only
      rw [if_neg (by omega : ¬n = 0)]
      exact ⟨hrec.1, by rw [hrec.2]; omega⟩

/-- A run of `k` rate-limited attempts followed by a non-retryable error
inside the budget propagates that error at attempt `attempt + k`. -/
theorem retry_drive_raises (f : Nat → AttemptOutcome α) (w : Nat → ℚ) (e : Err) :
    ∀ k fuel attempt, k < fuel →
      (∀ i, attempt ≤ i → i < attempt + k →
        f i = AttemptOutcome.tooManyRequests) →
      f (attempt + k) = AttemptOutcome.err e →
      (retry_drive f w fuel attempt).1 = RetryResult.raised e ∧
        (retry_drive f w fuel attempt).2.1 = attempt + k := by
  intro k
  induction k with
  | zero =>
    intro fuel attempt hk _ hs
    cases fuel with
    | zero => omega
    | succ n =>
      rw [Nat.add_zero] at hs
      rw [retry_drive, hs]
      simp
  | succ m ih =>
    intro fuel attempt hk hall hs
    have hfa : f attempt = AttemptOutcome.tooManyRequests :=
      hall attempt le_rfl (by omega)
    cases fuel with
    | zero => omega
    | succ n =>
      have hrec := ih n (attempt + 1) (by omega)
        (fun i h1 h2 => hall i (by omega) (by omega))
        (by rw [show attempt + 1 + m = attempt + (m + 1) by omega]; exact hs)
      rw [retry_drive, hfa]
      dsimp only
      rw [if_neg (by omega : ¬n = 0)]
      exact ⟨hrec.1, by rw [hrec.2]; omega⟩

/-- A value returned by the retry loop comes from a successful attempt. -/
theorem retry_drive_value_src (f : Nat → AttemptOutcome α) (w : Nat → ℚ) (v : α) :
    ∀ fuel attempt,
      (retry_drive f w fuel attempt).1 = RetryResult.value v →
      ∃ i, f i = AttemptOutcome.success v := by
  intro fuel
  induction fuel with
  | zero => intro attempt h; rw [retry_drive] at h; simp at h
  | succ n ih =>
    intro attempt h
    rw [retry_drive] at h
    cases hfa : f attempt with
    | success u =>
      rw [hfa] at h
      dsimp only at h
      injection h with h'
      exact ⟨attempt, by rw [hfa, h']⟩
    | err e => rw [hfa] at h; simp at h
    | tooManyRequests =>
      rw [hfa] at h
      dsimp only at h
      by_cases hn : n = 0
      · rw [if_pos hn] at h; simp at h
      · rw [if_neg hn] at h
        exact ih (attempt + 1) h

/-- Changing only the timezone field leaves every projection that
`_get_name` reads unchanged, so name resolution is unchanged. -/
theorem _get_name_tz (env : Env) (rp : RunParams)
    (cs : CapturedDataAssetParams) (tz : Option String) (comp : Computation) :
    _get_name env (mkSettings rp (withTz cs tz)) (withTz cs tz) comp =
      _get_name env (mkSettings rp cs) cs comp := by
  dsimp only [_get_name, _get_input_data_name, _get_name_from_data_description,
    validated_name_from_file, withTz, mkSettings]

/-- Changing only the timezone field leaves name selection unchanged. -/
theorem resolve_tz (env : Env) (rp : RunParams)
    (cs : CapturedDataAssetParams) (tz : Option String) (comp : Computation) :
    resolve_asset_name env (mkSettings rp (withTz cs tz)) (withTz cs tz) comp =
      resolve_asset_name env (mkSettings rp cs) cs comp := by
  unfold resolve_asset_name
  have hy : (withTz cs tz).name = cs.name := rfl
  rw [hy]
  cases hn : cs.name with
  | some n => rfl
  | none => exact _get_name_tz env rp cs tz comp

/-- Changing only the timezone field leaves the built creation request
unchanged. -/
theorem build_tz (env : Env) (rp : RunParams)
    (cs : CapturedDataAssetParams) (tz : Option String) (comp : Computation) :
    _build_data_asset_params env (mkSettings rp (withTz cs tz)) (withTz cs tz)
        comp =
      _build_data_asset_params env (mkSettings rp cs) cs comp := by
  unfold _build_data_asset_params
  rw [resolve_tz]
  cases hr : (resolve_asset_name env (mkSettings rp cs) cs comp).2 with
  | error e => rfl
  | ok nm =>
    dsimp only [withTz]

/-- Projection fact used when comparing run traces. -/
theorem withTz_permissions (cs : CapturedDataAssetParams) (tz : Option String) :
    (withTz cs tz).permissions = cs.permissions :=
  rfl

/-- Summary of the tenacity wrapper's behaviour on attempt-outcome
sequences: at most 6 rate limits followed by success return the value;
7 rate limits exhaust; a non-retryable error propagates at once. -/
theorem retry_attempt_outcomes (f : Nat → AttemptOutcome α) (w : Nat → ℚ) :
    (∀ k v, k ≤ 6 →
      (∀ i, 1 ≤ i → i ≤ k → f i = AttemptOutcome.tooManyRequests) →
      f (k + 1) = AttemptOutcome.success v →
      (retry_call f w).1 = RetryResult.value v ∧
        (retry_call f w).2.1 = k + 1 ∧ k + 1 ≤ 7) ∧
      ((∀ i, 1 ≤ i → i ≤ 7 → f i = AttemptOutcome.tooManyRequests) →
        (retry_call f w).1 = RetryResult.exhausted ∧
          (retry_call f w).2.1 = 7) ∧
      (∀ k e, k ≤ 6 →
        (∀ i, 1 ≤ i → i ≤ k → f i = AttemptOutcome.tooManyRequests) →
        f (k + 1) = AttemptOutcome.err e →
        (retry_call f w).1 = RetryResult.raised e ∧
          (retry_call f w).2.1 = k + 1) := by
  refine ⟨?_, ?_, ?_⟩
  · intro k v hk hall hs
    have h := retry_drive_value f w v k 7 1 (by omega)
      (fun i h1 h2 => hall i h1 (by omega))
      (by rw [show 1 + k = k + 1 by omega]; exact hs)
    exact ⟨h.1, by rw [retry_call, h.2]; omega, by omega⟩
  · intro hall
    have h := retry_drive_exhausts f w 7 1 (by omega)
      (fun i h1 h2 => hall i h1 (by omega))
    exact ⟨h.1, by rw [retry_call, h.2]⟩
  · intro k e hk hall hs
    have h := retry_drive_raises f w e k 7 1 (by omega)
      (fun i h1 h2 => hall i h1 (by omega))
      (by rw [show 1 + k = k + 1 by omega]; exact hs)
    exact ⟨h.1, by rw [retry_call, h.2]; omega⟩

/-- The total wait slept across three rate-limited attempts followed by
a success is the sum of the three configured waits. -/
theorem retry_call_wait3 (f : Nat → AttemptOutcome α) (w : Nat → ℚ) (v : α)
    (h1 : f 1 = AttemptOutcome.tooManyRequests)
    (h2 : f 2 = AttemptOutcome.tooManyRequests)
    (h3 : f 3 = AttemptOutcome.tooManyRequests)
    (h4 : f 4 = AttemptOutcome.success v) :
    (retry_call f w).2.2 = w 1 + (w 2 + (w 3 + 0)) := by
  simp [retry_call, retry_drive, h1, h2, h3, h4]

/-- Projection fact for the settings constructor. -/
theorem mkSettings_capture (rp : RunParams) (cs : CapturedDataAssetParams) :
    (mkSettings rp cs).capture_settings = some cs :=
  rfl

/-- Projection fact for the settings constructor. -/
theorem mkSettings_run_params (rp : RunParams) (cs : CapturedDataAssetParams) :
    (mkSettings rp cs).run_params = rp :=
  rfl

/-- A value returned by the asset wait comes from an `ok` service
response whose state is not Failed (the Failed state raises instead). -/
theorem wait_value_not_failed (env : Env) (a : DataAsset)
    (ha : (_wait_for_data_asset env.wait_ready_responses env.jitter).1 =
      RetryResult.value a) :
    (∃ i, env.wait_ready_responses i = HttpResult.ok a) ∧
      a.state ≠ DataAssetState.Failed := by
  obtain ⟨i, hi⟩ := retry_drive_value_src
    (fun j => data_asset_attempt (env.wait_ready_responses j))
    (retry_wait env.jitter) a 7 1 ha
  cases hri : env.wait_ready_responses i with
  | ok b =>
    rw [hri] at hi
    by_cases hb : b.state = DataAssetState.Failed
    · simp [data_asset_attempt, hb] at hi
    · simp [data_asset_attempt, hb] at hi
      subst hi
      exact ⟨⟨i, hri⟩, hb⟩
  | httpError st =>
    rw [hri] at hi
    by_cases h429 : st = 429 <;> simp [data_asset_attempt, h429] at hi

/-! Claim theorems. -/

/-- C1: when the capture settings carry an explicit `name`, the resolved
asset name in the creation request is exactly that name, for every
oracle (descriptor contents, input-asset lookups); no remote call is
made for naming and the build does not depend on the oracle at all. -/
theorem claim_C1_explicit_name_wins (env env' : Env)
    (s : PipelineMonitorSettings) (cs : CapturedDataAssetParams)
    (computation : Computation) (n : String) (hname : cs.name = some n) :
    Except.map DataAssetParams.name
        (_build_data_asset_params env s cs computation).2 = Except.ok n ∧
      (_build_data_asset_params env s cs computation).1 = [] ∧
      _build_data_asset_params env' s cs computation =
        _build_data_asset_params env s cs computation := by
  have hres : ∀ e0 : Env,
      resolve_asset_name e0 s cs computation = ([], Except.ok n) := by
    intro e0
    unfold resolve_asset_name
    rw [hname]
  refine ⟨?_, ?_, ?_⟩
  · simp [_build_data_asset_params, hres env, Except.map]
  · rw [_build_fst_eq, hres env]
  · simp [_build_data_asset_params, hres env, hres env']

/-- Witness for C1 at a concrete input: explicit name "run-42". -/
theorem claim_C1_witness :
    Except.map DataAssetParams.name
        (_build_data_asset_params envBase sExplicit csExplicit
          compCompleted).2 = Except.ok "run-42" ∧
      (_build_data_asset_params envBase sExplicit csExplicit
        compCompleted).1 = [] := by
  have h := claim_C1_explicit_name_wins envBase envBase sExplicit csExplicit
    compCompleted "run-42" rfl
  exact ⟨h.1, h.2.1⟩

/-- C4: a descriptor-file name that fails the DERIVED pattern check is
not an error: resolution falls through to the default name
input-asset-name ++ "_" ++ suffix ++ "_" ++ timestamp, where the suffix
default (from models.py) is "processed". -/
theorem claim_C4_pattern_mismatch_falls_back (env : Env)
    (s : PipelineMonitorSettings) (cs : CapturedDataAssetParams)
    (computation : Computation) (nf : String) (fda : DataAssetsParam)
    (rest : List DataAssetsParam)
    (hdd : (_get_name_from_data_description env cs computation).2 = some nf)
    (hmatch : env.matches_derived_regex nf = false)
    (hda : s.run_params.data_assets = fda :: rest) :
    (_get_name env s cs computation).2 =
        Except.ok (env.get_data_asset_name fda.id ++ "_" ++
          pyStr cs.process_name_suffix ++ "_" ++
          strftime_Y_m_d_H_M_S env.now) ∧
      (cs.process_name_suffix =
          defaultCapturedDataAssetParams.process_name_suffix →
        (_get_name env s cs computation).2 =
          Except.ok (env.get_data_asset_name fda.id ++ "_" ++ "processed" ++
            "_" ++ strftime_Y_m_d_H_M_S env.now)) := by
  have hval : validated_name_from_file env cs computation = none := by
    unfold validated_name_from_file
    rw [hdd]
    simp [hmatch]
  have hin : _get_input_data_name env s =
      ([Call.getDataAsset fda.id],
        some (env.get_data_asset_name fda.id)) := by
    unfold _get_input_data_name
    rw [hda]
  have hmain : (_get_name env s cs computation).2 =
      Except.ok (env.get_data_asset_name fda.id ++ "_" ++
        pyStr cs.process_name_suffix ++ "_" ++ strftime_Y_m_d_H_M_S env.now) := by
    unfold _get_name
    rw [hval, hin]
    simp [pyStr]
  refine ⟨hmain, fun hsuf => ?_⟩
  rw [hmain, hsuf]
  simp [defaultCapturedDataAssetParams, pyStr]

/-- Witness for C4 at a concrete input: descriptor name
"not_matching_pattern" fails the pattern, input asset "raw-ecephys",
default suffix, clock 2024-01-01T10:00:00Z. -/
theorem claim_C4_witness :
    (_get_name envBase sInput defaultCapturedDataAssetParams
        compCompleted).2 =
      Except.ok "raw-ecephys_processed_2024-01-01_10-00-00" := by
  have h := claim_C4_pattern_mismatch_falls_back envBase sInput
    defaultCapturedDataAssetParams compCompleted "not_matching_pattern"
    { id := "da1", mount := "ecephys" } [] (by rfl) (by rfl) (by rfl)
  exact (h.2 (by rfl)).trans (by rfl)

/-- C7: in the built creation request, mount equals the settings mount
when set and the resolved name otherwise; the target is null unless the
settings specify one, in which case its bucket is taken verbatim from
the settings and its prefix is the resolved name. -/
theorem claim_C7_mount_and_target (env : Env) (s : PipelineMonitorSettings)
    (cs : CapturedDataAssetParams) (computation : Computation)
    (p : DataAssetParams)
    (hb : (_build_data_asset_params env s cs computation).2 = Except.ok p) :
    (∀ m, cs.mount = some m → p.mount = m) ∧
      (cs.mount = none → p.mount = p.name) ∧
      (cs.target = none → p.target = none) ∧
      (∀ t, cs.target = some t →
        p.target = some ⟨⟨t.aws.bucket, p.name⟩⟩) := by
  unfold _build_data_asset_params at hb
  dsimp only at hb
  cases hr : (resolve_asset_name env s cs computation).2 with
  | error e =>
    rw [hr] at hb
    exact absurd hb (by simp)
  | ok nm =>
    rw [hr] at hb
    dsimp only at hb
    injection hb with hp
    subst hp
    refine ⟨?_, ?_, ?_, ?_⟩
    · intro m hm
      simp [hm]
    · intro hm
      simp [hm]
    · intro ht
      simp [ht]
    · intro t ht
      simp [ht]

/-- Witness for C7 at a concrete input: the default-name happy path,
where mount falls back to the resolved name and no target is set. -/
theorem claim_C7_witness :
    paramsDefaultName.mount = paramsDefaultName.name ∧
      paramsDefaultName.target = none := by
  have h := claim_C7_mount_and_target envBase sInput
    defaultCapturedDataAssetParams compCompleted paramsDefaultName (by rfl)
  exact ⟨h.2.1 rfl, h.2.2.1 rfl⟩

/-- C8: the builder is a pure assembly step: its output is determined by
the capture settings, the resolved name and the completed computation's
id; it issues no remote calls beyond those of name resolution; and it
fails exactly when name resolution fails, with the same error. -/
theorem claim_C8_builder_pure (env₁ env₂ : Env)
    (s₁ s₂ : PipelineMonitorSettings) (cs : CapturedDataAssetParams)
    (c₁ c₂ : Computation) :
    ((resolve_asset_name env₁ s₁ cs c₁).2 =
        (resolve_asset_name env₂ s₂ cs c₂).2 → c₁.id = c₂.id →
      (_build_data_asset_params env₁ s₁ cs c₁).2 =
        (_build_data_asset_params env₂ s₂ cs c₂).2) ∧
      (_build_data_asset_params env₁ s₁ cs c₁).1 =
        (resolve_asset_name env₁ s₁ cs c₁).1 ∧
      (∀ e, (_build_data_asset_params env₁ s₁ cs c₁).2 = Except.error e ↔
        (resolve_asset_name env₁ s₁ cs c₁).2 = Except.error e) := by
  refine ⟨?_, _build_fst_eq env₁ s₁ cs c₁, ?_⟩
  · intro h hid
    unfold _build_data_asset_params
    dsimp only
    rw [h, hid]
  · intro e
    unfold _build_data_asset_params
    dsimp only
    cases hr : (resolve_asset_name env₁ s₁ cs c₁).2 with
    | error e' => simp
    | ok nm => simp

/-- Witness for C8 at a concrete input: same environment twice, and the
no-strategy-applies error propagates through the builder unchanged. -/
theorem claim_C8_witness :
    (_build_data_asset_params envBase sNone defaultCapturedDataAssetParams
        compCompleted).2 =
      (_build_data_asset_params envBase sNone defaultCapturedDataAssetParams
        compCompleted).2 ∧
      ((_build_data_asset_params envBase sNone defaultCapturedDataAssetParams
          compCompleted).2 =
        Except.error "Unable to construct data asset name." ↔
        (resolve_asset_name envBase sNone defaultCapturedDataAssetParams
          compCompleted).2 =
        Except.error "Unable to construct data asset name.") := by
  have h := claim_C8_builder_pure envBase envBase sNone sNone
    defaultCapturedDataAssetParams compCompleted compCompleted
  exact ⟨h.1 rfl rfl, h.2.2 "Unable to construct data asset name."⟩

/-- C10: the `process_name_suffix_tz` settings field has no effect: two
runs whose capture settings differ only in that field produce identical
call traces and results, and identical resolved names; the timestamp is
always taken from the UTC clock. -/
theorem claim_C10_tz_has_no_effect (env : Env) (rp : RunParams)
    (cs : CapturedDataAssetParams) (tz : Option String)
    (computation : Computation) :
    run_job env (mkSettings rp (withTz cs tz)) =
        run_job env (mkSettings rp cs) ∧
      _get_name env (mkSettings rp (withTz cs tz)) (withTz cs tz)
          computation =
        _get_name env (mkSettings rp cs) cs computation := by
  refine ⟨?_, _get_name_tz env rp cs tz computation⟩
  cases hm : (_monitor_pipeline env.monitor_responses env.jitter).1 with
  | exhausted => simp [run_job, hm, mkSettings]
  | raised e => simp [run_job, hm, mkSettings]
  | value c =>
    have hb := build_tz env rp cs tz c
    simp only [mkSettings] at hb
    simp [run_job, hm, mkSettings, hb, withTz_permissions]

/-- C2: for both retry-wrapped polling calls, at most 6 rate-limited
(HTTP 429) responses followed by a successful underlying call return the
success with at most 7 attempts; 7 rate-limited responses raise the
exhausted-retries error after exactly 7 attempts; and a non-rate-limited
error (another HTTP status, or a Failed resource state) is propagated at
the attempt where it occurs, with no further attempt. -/
theorem claim_C2_retry_policy (mres : Nat → HttpResult Computation)
    (ares : Nat → HttpResult DataAsset) (jitter : Nat → ℚ) :
    (∀ k c, k ≤ 6 →
      (∀ i, 1 ≤ i → i ≤ k → mres i = HttpResult.httpError 429) →
      mres (k + 1) = HttpResult.ok c → c.state ≠ ComputationState.Failed →
      (_monitor_pipeline mres jitter).1 = RetryResult.value c ∧
        (_monitor_pipeline mres jitter).2.1 = k + 1 ∧ k + 1 ≤ 7) ∧
      ((∀ i, 1 ≤ i → i ≤ 7 → mres i = HttpResult.httpError 429) →
        (_monitor_pipeline mres jitter).1 = RetryResult.exhausted ∧
          (_monitor_pipeline mres jitter).2.1 = 7) ∧
      (∀ k st, k ≤ 6 →
        (∀ i, 1 ≤ i → i ≤ k → mres i = HttpResult.httpError 429) →
        mres (k + 1) = HttpResult.httpError st → st ≠ 429 →
        (_monitor_pipeline mres jitter).1 =
            RetryResult.raised (Err.httpError st) ∧
          (_monitor_pipeline mres jitter).2.1 = k + 1) ∧
      (∀ k c, k ≤ 6 →
        (∀ i, 1 ≤ i → i ≤ k → mres i = HttpResult.httpError 429) →
        mres (k + 1) = HttpResult.ok c → c.state = ComputationState.Failed →
        (_monitor_pipeline mres jitter).1 =
            RetryResult.raised (Err.pipelineFailed c) ∧
          (_monitor_pipeline mres jitter).2.1 = k + 1) ∧
      (∀ k a, k ≤ 6 →
        (∀ i, 1 ≤ i → i ≤ k → ares i = HttpResult.httpError 429) →
        ares (k + 1) = HttpResult.ok a → a.state ≠ DataAssetState.Failed →
        (_wait_for_data_asset ares jitter).1 = RetryResult.value a ∧
          (_wait_for_data_asset ares jitter).2.1 = k + 1 ∧ k + 1 ≤ 7) ∧
      ((∀ i, 1 ≤ i → i ≤ 7 → ares i = HttpResult.httpError 429) →
        (_wait_for_data_asset ares jitter).1 = RetryResult.exhausted ∧
          (_wait_for_data_asset ares jitter).2.1 = 7) ∧
      (∀ k st, k ≤ 6 →
        (∀ i, 1 ≤ i → i ≤ k → ares i = HttpResult.httpError 429) →
        ares (k + 1) = HttpResult.httpError st → st ≠ 429 →
        (_wait_for_data_asset ares jitter).1 =
            RetryResult.raised (Err.httpError st) ∧
          (_wait_for_data_asset ares jitter).2.1 = k + 1) ∧
      (∀ k a, k ≤ 6 →
        (∀ i, 1 ≤ i → i ≤ k → ares i = HttpResult.httpError 429) →
        ares (k + 1) = HttpResult.ok a → a.state = DataAssetState.Failed →
        (_wait_for_data_asset ares jitter).1 =
            RetryResult.raised (Err.dataAssetFailed a) ∧
          (_wait_for_data_asset ares jitter).2.1 = k + 1) := by
  obtain ⟨hmv, hme, hmr⟩ := retry_attempt_outcomes
    (fun i => monitor_attempt (mres i)) (retry_wait jitter)
  obtain ⟨hav, hae, har⟩ := retry_attempt_outcomes
    (fun i => data_asset_attempt (ares i)) (retry_wait jitter)
  refine ⟨?_, ?_, ?_, ?_, ?_, ?_, ?_, ?_⟩
  · intro k c hk h429 hok hst
    exact hmv k c hk
      (fun i h1 h2 => by rw [h429 i h1 h2]; rfl)
      (by rw [hok]; simp [monitor_attempt, hst])
  · intro h429
    exact hme (fun i h1 h2 => by rw [h429 i h1 h2]; rfl)
  · intro k st hk h429 herr hne
    exact hmr k (Err.httpError st) hk
      (fun i h1 h2 => by rw [h429 i h1 h2]; rfl)
      (by rw [herr]; simp [monitor_attempt, hne])
  · intro k c hk h429 hok hst
    exact hmr k (Err.pipelineFailed c) hk
      (fun i h1 h2 => by rw [h429 i h1 h2]; rfl)
      (by rw [hok]; simp [monitor_attempt, hst])
  · intro k a hk h429 hok hst
    exact hav k a hk
      (fun i h1 h2 => by rw [h429 i h1 h2]; rfl)
      (by rw [hok]; simp [data_asset_attempt, hst])
  · intro h429
    exact hae (fun i h1 h2 => by rw [h429 i h1 h2]; rfl)
  · intro k st hk h429 herr hne
    exact har k (Err.httpError st) hk
      (fun i h1 h2 => by rw [h429 i h1 h2]; rfl)
      (by rw [herr]; simp [data_asset_attempt, hne])
  · intro k a hk h429 hok hst
    exact har k (Err.dataAssetFailed a) hk
      (fun i h1 h2 => by rw [h429 i h1 h2]; rfl)
      (by rw [hok]; simp [data_asset_attempt, hst])

/-- Witness for C2 at concrete inputs: two 429s then a completed
computation succeed in 3 attempts; unbroken 429s exhaust the data-asset
wait after 7 attempts. -/
theorem claim_C2_witness :
    (_monitor_pipeline mres2 (fun _ => 0)).1 =
        RetryResult.value compCompleted ∧
      (_monitor_pipeline mres2 (fun _ => 0)).2.1 = 3 ∧
      (_wait_for_data_asset (fun _ => HttpResult.httpError 429)
          (fun _ => 0)).1 = RetryResult.exhausted ∧
      (_wait_for_data_asset (fun _ => HttpResult.httpError 429)
          (fun _ => 0)).2.1 = 7 := by
  have h := claim_C2_retry_policy mres2 (fun _ => HttpResult.httpError 429)
    (fun _ => 0)
  have hm := h.1 2 compCompleted (by omega)
    (fun i h1 h2 => by unfold mres2; rw [if_pos h2])
    (by rfl) (by decide)
  have ha := h.2.2.2.2.2.1 (fun i h1 h2 => rfl)
  exact ⟨hm.1, hm.2.1, ha.1, ha.2⟩

/-- C5 counterexample: with a zero jitter draw, the wait before the 2nd
retry is 8 time-units, strictly below the claimed
min(32, 8 * 2 ^ (2 - 1)) = 16, so no jitter in [0, 5] reconciles them;
and for three rate limits followed by success the total backoff before
the 4th attempt is 24 time-units, strictly below the claimed 8+16+32. -/
theorem claim_C5_counterexample :
    retry_wait (fun _ => 0) 2 = 8 ∧
      min (32 : ℚ) (8 * 2 ^ (2 - 1)) = 16 ∧
      retry_wait (fun _ => 0) 2 < min (32 : ℚ) (8 * 2 ^ (2 - 1)) ∧
      (retry_call f3then (retry_wait (fun _ => 0))).2.2 = 24 ∧
      (retry_call f3then (retry_wait (fun _ => 0))).2.2 <
        (8 : ℚ) + 16 + 32 := by
  have h1 : retry_wait (fun _ => 0) 2 = 8 := by
    norm_num [retry_wait, wait_exponential, min_def, max_def]
  have h2 : min (32 : ℚ) (8 * 2 ^ (2 - 1)) = 16 := by
    norm_num [min_def]
  have h3 : (retry_call f3then (retry_wait (fun _ => 0))).2.2 = 24 := by
    norm_num [retry_call, retry_drive, f3then, retry_wait, wait_exponential,
      min_def, max_def]
  refine ⟨h1, h2, ?_, h3, ?_⟩
  · rw [h1, h2]; norm_num
  · rw [h3]; norm_num

/-- C5 amended: the wait before the i-th retry is
max(8, min(2 ^ (i - 1), 32)) plus the jitter draw in [0, 5): the raw
exponential 2 ^ (i - 1) is clamped to the [8, 32] band (so it stays at 8
for the first four retries, then 16, then 32); for 3 consecutive rate
limits followed by success the call succeeds at attempt 4 with total
backoff at least 8 + 8 + 8 = 24 time-units. -/
theorem claim_C5_backoff (jitter : Nat → ℚ)
    (f : Nat → AttemptOutcome Computation) (v : Computation)
    (hj : ∀ i, 0 ≤ jitter i ∧ jitter i < 5) :
    (∀ i, retry_wait jitter i =
      max 8 (min (2 ^ (i - 1)) 32) + jitter i) ∧
      (f 1 = AttemptOutcome.tooManyRequests →
        f 2 = AttemptOutcome.tooManyRequests →
        f 3 = AttemptOutcome.tooManyRequests →
        f 4 = AttemptOutcome.success v →
        (retry_call f (retry_wait jitter)).1 = RetryResult.value v ∧
          (retry_call f (retry_wait jitter)).2.1 = 4 ∧
          24 ≤ (retry_call f (retry_wait jitter)).2.2) := by
  have h08 : max (0 : ℚ) 8 = 8 := max_eq_right (by norm_num)
  have hwait : ∀ i, retry_wait jitter i =
      max 8 (min (2 ^ (i - 1)) 32) + jitter i := by
    intro i
    simp [retry_wait, wait_exponential, h08, one_mul]
  refine ⟨hwait, fun h1 h2 h3 h4 => ?_⟩
  have hv := retry_drive_value f (retry_wait jitter) v 3 7 1 (by omega)
    (fun i hi1 hi2 => by
      interval_cases i
      · exact h1
      · exact h2
      · exact h3)
    (by rw [show 1 + 3 = 4 by omega]; exact h4)
  have hw := retry_call_wait3 f (retry_wait jitter) v h1 h2 h3 h4
  have hge : ∀ i, (8 : ℚ) ≤ retry_wait jitter i := by
    intro i
    rw [hwait i]
    have hjm := (hj i).1
    have : (8 : ℚ) ≤ max 8 (min (2 ^ (i - 1)) 32) := le_max_left _ _
    linarith
  refine ⟨hv.1, by rw [retry_call, hv.2], ?_⟩
  rw [hw]
  have g1 := hge 1
  have g2 := hge 2
  have g3 := hge 3
  linarith

/-- Witness for C5 at a concrete input: zero jitter draws and three rate
limits followed by success. -/
theorem claim_C5_witness :
    (retry_call f3then (retry_wait (fun _ => 0))).1 =
        RetryResult.value compCompleted ∧
      (retry_call f3then (retry_wait (fun _ => 0))).2.1 = 4 ∧
      24 ≤ (retry_call f3then (retry_wait (fun _ => 0))).2.2 := by
  have h := claim_C5_backoff (fun _ => 0) f3then compCompleted
    (fun i => ⟨le_refl 0, by norm_num⟩)
  exact h.2 rfl rfl rfl rfl

/-- C3: with capture requested, no explicit name, no usable descriptor
name and no referenced input data assets, the run fails with the
unrecoverable cannot-construct-name error, and no asset-creation call
appears anywhere in the run's trace. -/
theorem claim_C3_name_failure_before_create (env : Env) (rp : RunParams)
    (cs : CapturedDataAssetParams) (comp : Computation)
    (hname : cs.name = none) (hda : rp.data_assets = [])
    (hm : (_monitor_pipeline env.monitor_responses env.jitter).1 =
      RetryResult.value comp)
    (hdd : validated_name_from_file env cs comp = none) :
    (run_job env (mkSettings rp cs)).2 =
        Except.error
          (Err.nameResolution "Unable to construct data asset name.") ∧
      ∀ p, Call.createDataAsset p ∉ (run_job env (mkSettings rp cs)).1 := by
  have hin : (_get_input_data_name env (mkSettings rp cs)).2 = none := by
    simp [_get_input_data_name, mkSettings_run_params, hda]
  have hgn : (_get_name env (mkSettings rp cs) cs comp).2 =
      Except.error "Unable to construct data asset name." := by
    simp [_get_name, hdd, hin]
  have hres : resolve_asset_name env (mkSettings rp cs) cs comp =
      _get_name env (mkSettings rp cs) cs comp := by
    unfold resolve_asset_name
    rw [hname]
  have hb : (_build_data_asset_params env (mkSettings rp cs) cs comp).2 =
      Except.error "Unable to construct data asset name." := by
    simp [_build_data_asset_params, hres, hgn]
  constructor
  · simp [run_job, hm, mkSettings_capture, hb]
  · intro p hp0
    have hp : Call.createDataAsset p ∈
        (resolve_asset_name env (mkSettings rp cs) cs comp).1 := by
      simpa [run_job, hm, mkSettings_capture, mkSettings_run_params, hb]
        using hp0
    exact (build_calls_are_reads env (mkSettings rp cs) cs comp _
      (by rw [_build_fst_eq]; exact hp)).1 p rfl

/-- Witness for C3 at a concrete input: default capture settings, no
input assets, and a descriptor name that fails the pattern check. -/
theorem claim_C3_witness :
    (run_job envBase sNone).2 =
        Except.error
          (Err.nameResolution "Unable to construct data asset name.") ∧
      Call.createDataAsset paramsEmpty ∉ (run_job envBase sNone).1 := by
  have h := claim_C3_name_failure_before_create envBase rpNone
    defaultCapturedDataAssetParams compCompleted rfl rfl (by rfl) (by rfl)
  exact ⟨h.1, h.2 paramsEmpty⟩

/-- C6: permissions are assigned only after the asset wait returned an
asset, and (because the wait raises on the Failed state, and the
external wait-until-ready contract only yields terminal states) that
asset is in the Ready state; a Failed asset can never be returned by the
wait, and when the wait does not return a value no permission call is
issued. -/
theorem claim_C6_permissions_only_after_ready (env : Env) (rp : RunParams)
    (cs : CapturedDataAssetParams)
    (hterm : ∀ i a, env.wait_ready_responses i = HttpResult.ok a →
      a.state = DataAssetState.Ready ∨ a.state = DataAssetState.Failed) :
    (∀ aid pm,
      Call.updatePermissions aid pm ∈ (run_job env (mkSettings rp cs)).1 →
      ∃ a, (_wait_for_data_asset env.wait_ready_responses env.jitter).1 =
          RetryResult.value a ∧ a.state = DataAssetState.Ready) ∧
      (∀ a, (_wait_for_data_asset env.wait_ready_responses env.jitter).1 =
          RetryResult.value a → a.state ≠ DataAssetState.Failed) ∧
      (∀ a, (_wait_for_data_asset env.wait_ready_responses env.jitter).1 =
          RetryResult.raised (Err.dataAssetFailed a) →
        ∀ aid pm,
          Call.updatePermissions aid pm ∉ (run_job env (mkSettings rp cs)).1) := by
  have hready : ∀ a,
      (_wait_for_data_asset env.wait_ready_responses env.jitter).1 =
        RetryResult.value a → a.state = DataAssetState.Ready := by
    intro a ha
    obtain ⟨⟨i, hri⟩, hnf⟩ := wait_value_not_failed env a ha
    rcases hterm i a hri with h | h
    · exact h
    · exact absurd h hnf
  have hperm : ∀ aid pm,
      Call.updatePermissions aid pm ∈ (run_job env (mkSettings rp cs)).1 →
      ∃ a, (_wait_for_data_asset env.wait_ready_responses env.jitter).1 =
        RetryResult.value a := by
    intro aid pm hp
    cases hm : (_monitor_pipeline env.monitor_responses env.jitter).1 with
    | exhausted =>
      simp [run_job, hm, mkSettings_capture, mkSettings_run_params] at hp
    | raised e =>
      simp [run_job, hm, mkSettings_capture, mkSettings_run_params] at hp
    | value comp =>
      cases hb : (_build_data_asset_params env (mkSettings rp cs) cs comp).2 with
      | error msg =>
        have hp2 : Call.updatePermissions aid pm ∈
            (resolve_asset_name env (mkSettings rp cs) cs comp).1 := by
          simpa [run_job, hm, mkSettings_capture, mkSettings_run_params, hb]
            using hp
        exact absurd rfl
          ((build_calls_are_reads env (mkSettings rp cs) cs comp _
            (by rw [_build_fst_eq]; exact hp2)).2 aid pm)
      | ok params =>
        cases hw :
            (_wait_for_data_asset env.wait_ready_responses env.jitter).1 with
        | exhausted =>
          have hp2 : Call.updatePermissions aid pm ∈
              (resolve_asset_name env (mkSettings rp cs) cs comp).1 := by
            simpa [run_job, hm, mkSettings_capture, mkSettings_run_params,
              hb, hw] using hp
          exact absurd rfl
            ((build_calls_are_reads env (mkSettings rp cs) cs comp _
              (by rw [_build_fst_eq]; exact hp2)).2 aid pm)
        | raised e =>
          have hp2 : Call.updatePermissions aid pm ∈
              (resolve_asset_name env (mkSettings rp cs) cs comp).1 := by
            simpa [run_job, hm, mkSettings_capture, mkSettings_run_params,
              hb, hw] using hp
          exact absurd rfl
            ((build_calls_are_reads env (mkSettings rp cs) cs comp _
              (by rw [_build_fst_eq]; exact hp2)).2 aid pm)
        | value a => exact ⟨a, rfl⟩
  refine ⟨?_, fun a ha => (wait_value_not_failed env a ha).2, ?_⟩
  · intro aid pm hp
    obtain ⟨a, ha⟩ := hperm aid pm hp
    exact ⟨a, ha, hready a ha⟩
  · intro a hw aid pm hp
    obtain ⟨b, hbv⟩ := hperm aid pm hp
    rw [hw] at hbv
    exact RetryResult.noConfusion hbv

/-- Witness for C6 at a concrete input: the asset becomes Ready on the
first poll, so the wait returns it and it is not Failed. -/
theorem claim_C6_witness :
    (_wait_for_data_asset envBase.wait_ready_responses envBase.jitter).1 =
        RetryResult.value assetReady ∧
      assetReady.state ≠ DataAssetState.Failed := by
  have h := claim_C6_permissions_only_after_ready envBase rpOne
    defaultCapturedDataAssetParams
    (fun i a ha => by
      injection ha with ha'
      rw [← ha']
      exact Or.inl rfl)
  exact ⟨by rfl, h.2.1 assetReady (by rfl)⟩

/-- C9 counterexample: capture settings may carry the explicit name "",
which wins outright; the run then issues an asset-creation call whose
name (and mount) is the empty string. -/
theorem claim_C9_counterexample :
    Call.createDataAsset paramsEmpty ∈ (run_job envBase sEmptyName).1 ∧
      paramsEmpty.name = "" := by
  have htr : (run_job envBase sEmptyName).1 =
      [Call.runCapsule rpNone, Call.waitUntilCompleted,
        Call.createDataAsset paramsEmpty, Call.waitUntilReady,
        Call.updatePermissions "asset1" "everyone:viewer"] := by rfl
  rw [htr]
  exact ⟨by simp, rfl⟩

/-- C9 amended: when no explicit name is set (so the empty explicit name
cannot be passed through) and the DERIVED pattern rejects the empty
string, any name the builder resolves is non-empty: a descriptor name
must match the pattern, and the constructed default contains literal
underscores. -/
theorem claim_C9_resolved_name_nonempty (env : Env)
    (s : PipelineMonitorSettings) (cs : CapturedDataAssetParams)
    (comp : Computation) (p : DataAssetParams)
    (hre : env.matches_derived_regex "" = false)
    (hname : cs.name = none)
    (hb : (_build_data_asset_params env s cs comp).2 = Except.ok p) :
    p.name ≠ "" := by
  have hres : (resolve_asset_name env s cs comp).2 =
      (_get_name env s cs comp).2 := by
    unfold resolve_asset_name
    rw [hname]
  unfold _build_data_asset_params at hb
  dsimp only at hb
  cases hr : (resolve_asset_name env s cs comp).2 with
  | error e =>
    rw [hr] at hb
    exact absurd hb (by simp)
  | ok nm =>
    rw [hr] at hb
    dsimp only at hb
    injection hb with hp
    subst hp
    show nm ≠ ""
    rw [hres] at hr
    unfold _get_name at hr
    dsimp only at hr
    cases hv : validated_name_from_file env cs comp with
    | some n =>
      rw [hv] at hr
      dsimp only at hr
      injection hr with hr'
      subst hr'
      unfold validated_name_from_file at hv
      cases hdd2 : (_get_name_from_data_description env cs comp).2 with
      | none => rw [hdd2] at hv; exact absurd hv (by simp)
      | some n0 =>
        rw [hdd2] at hv
        dsimp only at hv
        by_cases hm0 : env.matches_derived_regex n0 = true
        · rw [if_pos hm0] at hv
          injection hv with hv'
          subst hv'
          intro h0
          rw [h0] at hm0
          rw [hre] at hm0
          exact Bool.noConfusion hm0
        · rw [if_neg hm0] at hv
          exact absurd hv (by simp)
    | none =>
      rw [hv] at hr
      cases hi : (_get_input_data_name env s).2 with
      | none => rw [hi] at hr; exact absurd hr (by simp)
      | some val =>
        rw [hi] at hr
        dsimp only at hr
        injection hr with hr'
        subst hr'
        intro h0
        have h2 := congrArg String.length h0
        have h1 : ("_" : String).length = 1 := rfl
        simp [String.length_append, h1] at h2

/-- Witness for the amended C9 at a concrete input: the default-name
path yields the non-empty "raw-ecephys_processed_2024-01-01_10-00-00". -/
theorem claim_C9_witness : paramsDefaultName.name ≠ "" :=
  claim_C9_resolved_name_nonempty envBase sInput
    defaultCapturedDataAssetParams compCompleted paramsDefaultName rfl rfl
    (by rfl)

end AindPipelineMonitor
